import Mathlib

/-!
Shallow embedding of the editor client messaging core of LumixEngine
(src/editor/editor_client.cpp): the command emitter, the wire codec, and
the inbound event dispatcher, together with proofs of the specified
wire-format and dispatch properties.

Bytes are modelled as natural numbers below 256 in lists; 32-bit fields
use host-native byte order, modelled here as little-endian.  Machine
integers are modelled as Nat (unsigned) and Int (signed) with explicit
reduction modulo 2^32 where the code truncates.  Floating point values
are carried as their raw 32-bit patterns, which is faithful to the code:
the emitter only ever copies float bytes, never computes with them.
-/

namespace Lumix

/-- Appends a 32-bit unsigned value to a byte stream in host-native
(modelled little-endian) order, as Blob.write of a 4-byte field does. -/
def encodeU32 (n : Nat) : List Nat :=
  [n % 256, n / 256 % 256, n / 65536 % 256, n / 16777216 % 256]

/-- Reassembles the 32-bit unsigned value from exactly four bytes. -/
def decodeU32 (bs : List Nat) : Nat :=
  match bs with
  | [a, b, c, d] => a + 256 * b + 65536 * c + 16777216 * d
  | _ => 0

/-- Reinterprets a 32-bit unsigned value as the signed int32 with the
same bit pattern. -/
def toI32 (u : Nat) : Int :=
  if u < 2147483648 then (u : Int) else (u : Int) - 4294967296

/-- Appends a signed int32 to a byte stream: the bit pattern of the
value reduced modulo 2^32. -/
def encodeI32 (v : Int) : List Nat :=
  encodeU32 ((v % 4294967296).toNat)

/-- Reads the leading int32 of a buffer as a signed value. -/
def decodeI32 (bs : List Nat) : Int :=
  toI32 (decodeU32 bs)

/-- Modelled from the spec: core/crc32.h is not part of the excerpt; §6
fixes it as a standard CRC-32 checksum over the ASCII bytes of the name.
One bit step of the reflected CRC-32 with polynomial 0xEDB88320. -/
def crc32Bit (c : Nat) : Nat :=
  if c % 2 = 1 then (c / 2) ^^^ 0xEDB88320 else c / 2

/-- Modelled from the spec: folds one input byte into the CRC-32 state. -/
def crc32Byte (c b : Nat) : Nat :=
  Nat.repeat crc32Bit 8 (c ^^^ (b % 256))

/-- Modelled from the spec: standard CRC-32 of the bytes of a name. -/
def crc32 (s : String) : Nat :=
  ((s.toList.map Char.toNat).foldl crc32Byte 0xFFFFFFFF) ^^^ 0xFFFFFFFF

/-- The ASCII bytes of a path or name string, without terminator. -/
def strBytes (s : String) : List Nat :=
  s.toList.map Char.toNat

/-- Modelled from the spec: the Blob write buffer of core/blob.h is a
growable byte buffer; write appends raw bytes advancing the cursor. -/
def Blob.write (buf : List Nat) (bytes : List Nat) : List Nat :=
  buf ++ bytes

/-- Modelled from the spec: clearBuffer resets a write buffer to empty
while retaining capacity (capacity is an allocation detail with no
observable effect on the bytes). -/
def Blob.clearBuffer (_buf : List Nat) : List Nat :=
  []

/-- Modelled from the spec: reading n raw bytes from a read-only Blob
view fails as an OutOfBounds decoding error when fewer than n bytes
remain, otherwise consumes exactly n bytes. -/
def readBytes (n : Nat) (bs : List Nat) : Option (List Nat × List Nat) :=
  if n ≤ bs.length then some (bs.take n, bs.drop n) else none

/-- Modelled from the spec: reads a 4-byte unsigned field from a Blob
view, failing when fewer than 4 bytes remain. -/
def readU32 (bs : List Nat) : Option (Nat × List Nat) :=
  match bs with
  | a :: b :: c :: d :: rest => some (a + 256 * b + 65536 * c + 16777216 * d, rest)
  | _ => none

/-- Modelled from the spec: reads a 4-byte signed field from a Blob
view, failing when fewer than 4 bytes remain. -/
def readI32 (bs : List Nat) : Option (Int × List Nat) :=
  match readU32 bs with
  | some (u, rest) => some (toI32 u, rest)
  | none => none

/-- Modelled from the spec: reads a null-terminated string as its byte
list, failing when no terminator is present in the remaining bytes. -/
def readCString (bs : List Nat) : Option (List Nat × List Nat) :=
  match bs with
  | [] => none
  | b :: rest =>
    if b = 0 then some ([], rest)
    else match readCString rest with
      | some (s, r) => some (b :: s, r)
      | none => none

/-- A 3-component vector; the editor copies its 12 bytes raw, so each
component is carried as its 32-bit float pattern. -/
structure Vec3 where
  x : Nat
  y : Nat
  z : Nat
deriving DecidableEq

/-- The 12 raw bytes of a Vec3, in component order. -/
def Vec3.bytes (v : Vec3) : List Nat :=
  encodeU32 v.x ++ encodeU32 v.y ++ encodeU32 v.z

/- Modelled from the spec: editor/client_message_types.h is not part of
the excerpt; each command has a unique integer tag (§4.2), with concrete
values chosen here only to be distinct. -/
namespace ClientMessageType

def POINTER_DOWN : Nat := 1
def POINTER_MOVE : Nat := 2
def POINTER_UP : Nat := 3
def PROPERTY_SET : Nat := 4
def MOVE_CAMERA : Nat := 5
def SAVE : Nat := 6
def LOAD : Nat := 7
def ADD_COMPONENT : Nat := 8
def GET_PROPERTIES : Nat := 9
def ADD_ENTITY : Nat := 10
def TOGGLE_GAME_MODE : Nat := 11
def LOOK_AT_SELECTED : Nat := 12
def NEW_UNIVERSE : Nat := 13
def SET_WIREFRAME : Nat := 14
def SET_ANIMABLE_TIME : Nat := 15
def PLAY_PAUSE_ANIMABLE : Nat := 16
def SET_POSITION : Nat := 17

end ClientMessageType

/- Modelled from the spec: editor/server_message_types.h is not part of
the excerpt; each event has a unique integer tag (§4.3), with concrete
values chosen here only to be distinct. -/
namespace ServerMessageType

def ENTITY_POSITION : Int := 1
def ENTITY_SELECTED : Int := 2
def PROPERTY_LIST : Int := 3
def LOG_MESSAGE : Int := 4

end ServerMessageType

/-- Modelled from the spec: the entity-position-changed event carries an
entity id and a 3-component position (§4.3). -/
structure EntityPositionEvent where
  entity : Int
  position : Vec3
deriving DecidableEq

/-- Modelled from the spec: decodes an EntityPositionEvent from a Blob
view, consuming exactly 16 bytes or failing as a decoding error. -/
def EntityPositionEvent.read (bs : List Nat) : Option (EntityPositionEvent × List Nat) := do
  let (e, bs) ← readI32 bs
  let (x, bs) ← readU32 bs
  let (y, bs) ← readU32 bs
  let (z, bs) ← readU32 bs
  some (⟨e, ⟨x, y, z⟩⟩, bs)

/-- Modelled from the spec: the entity-selected event carries an entity
id, possibly a sentinel for none (§4.3). -/
structure EntitySelectedEvent where
  entity : Int
deriving DecidableEq

/-- Modelled from the spec: decodes an EntitySelectedEvent, consuming
exactly 4 bytes or failing as a decoding error. -/
def EntitySelectedEvent.read (bs : List Nat) : Option (EntitySelectedEvent × List Nat) := do
  let (e, bs) ← readI32 bs
  some (⟨e⟩, bs)

/-- Modelled from the spec: the log-message event carries a severity and
a text, the text as a null-terminated string (§4.3, §6). -/
structure LogEvent where
  severity : Int
  text : List Nat
deriving DecidableEq

/-- Modelled from the spec: decodes a LogEvent or fails as a decoding
error when the severity or the string terminator is missing. -/
def LogEvent.read (bs : List Nat) : Option (LogEvent × List Nat) := do
  let (sev, bs) ← readI32 bs
  let (txt, bs) ← readCString bs
  some (⟨sev, txt⟩, bs)

/-- Modelled from the spec: one name/type/value entry of a property list
(§4.3), the value length-prefixed (§6). -/
structure PropertyListEntry where
  nameHash : Nat
  typeHash : Nat
  value : List Nat
deriving DecidableEq

/-- Modelled from the spec: reads a counted sequence of property list
entries, failing as a decoding error when bytes run out. -/
def readEntries : Nat → List Nat → Option (List PropertyListEntry × List Nat)
  | 0, bs => some ([], bs)
  | n + 1, bs => do
    let (nh, bs) ← readU32 bs
    let (th, bs) ← readU32 bs
    let (len, bs) ← readI32 bs
    let (v, bs) ← readBytes len.toNat bs
    let (rest, bs) ← readEntries n bs
    some (⟨nh, th, v⟩ :: rest, bs)

/-- Modelled from the spec: the property-list event carries a component
descriptor and an ordered list of name/type/value entries (§4.3). -/
structure PropertyListEvent where
  componentHash : Nat
  entries : List PropertyListEntry
deriving DecidableEq

/-- Modelled from the spec: decodes a PropertyListEvent or fails as a
decoding error when bytes run out. -/
def PropertyListEvent.read (bs : List Nat) : Option (PropertyListEvent × List Nat) := do
  let (ch, bs) ← readU32 bs
  let (cnt, bs) ← readI32 bs
  let (es, bs) ← readEntries cnt.toNat bs
  some (⟨ch, es⟩, bs)

/-- The private implementation state of the editor client
(EditorClientImpl): the cached base path and universe path (Path is
modelled from the spec as a plain cached string), one order-preserving
listener list per event kind (DelegateList is modelled from the spec as
an ordered list of listener identifiers), and the reusable property-set
write buffer (the function-local static Blob of setComponentProperty,
carried here as explicit state). -/
structure EditorClientImpl where
  base_path : String
  universe_path : String
  entity_position_listeners : List Nat
  entity_selected_listeners : List Nat
  message_logged_listeners : List Nat
  property_list_listeners : List Nat
  property_stream : List Nat
deriving DecidableEq

/-- One listener invocation produced by a dispatch: which listener was
called and the decoded event it received; a dispatch produces these in
order, so a trace records order and multiplicity of calls. -/
inductive Invoked where
  | entityPosition (listener : Nat) (e : EntityPositionEvent)
  | entitySelected (listener : Nat) (e : EntitySelectedEvent)
  | logMessage (listener : Nat) (e : LogEvent)
  | propertyList (listener : Nat) (e : PropertyListEvent)
deriving DecidableEq

/-- EditorClientImpl::sendMessage: writes the 4-byte type tag into a
fresh Blob, appends the payload bytes when the data pointer is non-null,
and passes the buffer to the server in a single onMessage call; the
result is that one framed message. -/
def sendMessage (type : Nat) (data : Option (List Nat)) : List Nat :=
  let stream := Blob.write [] (encodeU32 type)
  let stream := match data with
    | some d => Blob.write stream d
    | none => stream
  stream

/-- EditorClientImpl::onMessage: creates a read view over the inbound
bytes, reads the 4-byte tag, and switches on it: each recognized tag
decodes its event and invokes that kind's listeners in registration
order; the default case is a silent no-op.  The result is the possibly
empty invocation trace, or none for a decoding failure (the modelled
OutOfBounds of a short buffer); the state is returned unchanged, as the
function assigns no field. -/
def EditorClientImpl.onMessage (s : EditorClientImpl) (data : List Nat) :
    EditorClientImpl × Option (List Invoked) :=
  match readI32 data with
  | none => (s, none)
  | some (message_type, stream) =>
    if message_type = ServerMessageType.ENTITY_POSITION then
      match EntityPositionEvent.read stream with
      | none => (s, none)
      | some (msg, _) =>
        (s, some (s.entity_position_listeners.map (fun l => Invoked.entityPosition l msg)))
    else if message_type = ServerMessageType.ENTITY_SELECTED then
      match EntitySelectedEvent.read stream with
      | none => (s, none)
      | some (msg, _) =>
        (s, some (s.entity_selected_listeners.map (fun l => Invoked.entitySelected l msg)))
    else if message_type = ServerMessageType.PROPERTY_LIST then
      match PropertyListEvent.read stream with
      | none => (s, none)
      | some (msg, _) =>
        (s, some (s.property_list_listeners.map (fun l => Invoked.propertyList l msg)))
    else if message_type = ServerMessageType.LOG_MESSAGE then
      match LogEvent.read stream with
      | none => (s, none)
      | some (msg, _) =>
        (s, some (s.message_logged_listeners.map (fun l => Invoked.logMessage l msg)))
    else
      (s, some [])

/-- The public editor client: a nullable pointer to the implementation. -/
structure EditorClient where
  impl : Option EditorClientImpl
deriving DecidableEq

/-- EditorClient::create: allocates a fresh implementation and stores
the base path in it. -/
def EditorClient.create (base_path : String) : EditorClient :=
  { impl := some { base_path := base_path, universe_path := "",
                   entity_position_listeners := [], entity_selected_listeners := [],
                   message_logged_listeners := [], property_list_listeners := [],
                   property_stream := [] } }

/-- EditorClient::destroy: deletes the implementation and nulls the
pointer when it is set, otherwise does nothing. -/
def EditorClient.destroy (c : EditorClient) : EditorClient :=
  match c.impl with
  | some _ => { impl := none }
  | none => c

/-- EditorClient::onMessage: forwards to the implementation only when
the pointer is non-null; with a null pointer nothing happens and the
empty trace results. -/
def EditorClient.onMessage (c : EditorClient) (data : List Nat) :
    EditorClient × Option (List Invoked) :=
  match c.impl with
  | some s =>
    let r := s.onMessage data
    ({ impl := some r.1 }, r.2)
  | none => (c, some [])

/-- EditorClient::getUniversePath on the implementation state. -/
def getUniversePath (s : EditorClientImpl) : String :=
  s.universe_path

/-- EditorClient::getBasePath on the implementation state. -/
def getBasePath (s : EditorClientImpl) : String :=
  s.base_path

/-- EditorClient::lookAtSelected: tag only, null data. -/
def lookAtSelected (s : EditorClientImpl) : EditorClientImpl × List (List Nat) :=
  (s, [sendMessage ClientMessageType.LOOK_AT_SELECTED none])

/-- EditorClient::addComponent: the component type tag as payload. -/
def addComponent (s : EditorClientImpl) (type : Nat) : EditorClientImpl × List (List Nat) :=
  (s, [sendMessage ClientMessageType.ADD_COMPONENT (some (encodeU32 type))])

/-- EditorClient::toggleGameMode: tag only, null data. -/
def toggleGameMode (s : EditorClientImpl) : EditorClientImpl × List (List Nat) :=
  (s, [sendMessage ClientMessageType.TOGGLE_GAME_MODE none])

/-- EditorClient::addEntity: tag only, null data. -/
def addEntity (s : EditorClientImpl) : EditorClientImpl × List (List Nat) :=
  (s, [sendMessage ClientMessageType.ADD_ENTITY none])

/-- EditorClient::mouseDown: x, y, button as three int32 fields. -/
def mouseDown (s : EditorClientImpl) (x y button : Int) : EditorClientImpl × List (List Nat) :=
  (s, [sendMessage ClientMessageType.POINTER_DOWN
        (some (encodeI32 x ++ encodeI32 y ++ encodeI32 button))])

/-- EditorClient::mouseUp: x, y, button as three int32 fields. -/
def mouseUp (s : EditorClientImpl) (x y button : Int) : EditorClientImpl × List (List Nat) :=
  (s, [sendMessage ClientMessageType.POINTER_UP
        (some (encodeI32 x ++ encodeI32 y ++ encodeI32 button))])

/-- EditorClient::mouseMove: x, y, dx, dy, flags as five int32 fields. -/
def mouseMove (s : EditorClientImpl) (x y dx dy flags : Int) :
    EditorClientImpl × List (List Nat) :=
  (s, [sendMessage ClientMessageType.POINTER_MOVE
        (some (encodeI32 x ++ encodeI32 y ++ encodeI32 dx ++ encodeI32 dy ++ encodeI32 flags))])

/-- EditorClient::loadUniverse: caches the path, then sends the
null-terminated path string (strlen + 1 bytes). -/
def loadUniverse (s : EditorClientImpl) (path : String) : EditorClientImpl × List (List Nat) :=
  ({ s with universe_path := path },
   [sendMessage ClientMessageType.LOAD (some (strBytes path ++ [0]))])

/-- EditorClient::setWireframe: the flag as a 4-byte integer. -/
def setWireframe (s : EditorClientImpl) (is_wireframe : Bool) :
    EditorClientImpl × List (List Nat) :=
  (s, [sendMessage ClientMessageType.SET_WIREFRAME
        (some (encodeI32 (if is_wireframe then 1 else 0)))])

/-- EditorClient::newUniverse: resets the cached path to the empty
string, then sends the tag with null data. -/
def newUniverse (s : EditorClientImpl) : EditorClientImpl × List (List Nat) :=
  ({ s with universe_path := "" },
   [sendMessage ClientMessageType.NEW_UNIVERSE none])

/-- EditorClient::setAnimableTime: the time as a 4-byte integer. -/
def setAnimableTime (s : EditorClientImpl) (time : Int) : EditorClientImpl × List (List Nat) :=
  (s, [sendMessage ClientMessageType.SET_ANIMABLE_TIME (some (encodeI32 time))])

/-- EditorClient::playPausePreviewAnimable: tag only, null data. -/
def playPausePreviewAnimable (s : EditorClientImpl) : EditorClientImpl × List (List Nat) :=
  (s, [sendMessage ClientMessageType.PLAY_PAUSE_ANIMABLE none])

/-- EditorClient::setEntityPosition: the entity id int32 followed by the
12 raw bytes of the position, 16 payload bytes total. -/
def setEntityPosition (s : EditorClientImpl) (entity : Int) (position : Vec3) :
    EditorClientImpl × List (List Nat) :=
  (s, [sendMessage ClientMessageType.SET_POSITION
        (some (encodeI32 entity ++ position.bytes))])

/-- EditorClient::saveUniverse: caches the path, then sends the
null-terminated path string (strlen + 1 bytes). -/
def saveUniverse (s : EditorClientImpl) (path : String) : EditorClientImpl × List (List Nat) :=
  ({ s with universe_path := path },
   [sendMessage ClientMessageType.SAVE (some (strBytes path ++ [0]))])

/-- EditorClient::navigate: forward, right, speed as three 4-byte float
patterns. -/
def navigate (s : EditorClientImpl) (forward right speed : Nat) :
    EditorClientImpl × List (List Nat) :=
  (s, [sendMessage ClientMessageType.MOVE_CAMERA
        (some (encodeU32 forward ++ encodeU32 right ++ encodeU32 speed))])

/-- The write sequence of setComponentProperty on a given write buffer:
the component name hash, the property name hash, the value length, then
length bytes of the value. -/
def writePropertyFields (buf : List Nat) (component property : String)
    (value : List Nat) (length : Int) : List Nat :=
  let stream := Blob.write buf (encodeU32 (crc32 component))
  let stream := Blob.write stream (encodeU32 (crc32 property))
  let stream := Blob.write stream (encodeI32 length)
  let stream := Blob.write stream (value.take length.toNat)
  stream

/-- Builds the setComponentProperty payload into a reused write buffer:
clears it, then writes the fields. -/
def buildPropertyPayload (buf : List Nat) (component property : String)
    (value : List Nat) (length : Int) : List Nat :=
  writePropertyFields (Blob.clearBuffer buf) component property value length

/-- EditorClient::setComponentProperty: rebuilds the payload in the
reused static write buffer and sends it; value stands for the bytes
reachable from the value pointer, of which length are written. -/
def setComponentProperty (s : EditorClientImpl) (component property : String)
    (value : List Nat) (length : Int) : EditorClientImpl × List (List Nat) :=
  let stream := buildPropertyPayload s.property_stream component property value length
  ({ s with property_stream := stream },
   [sendMessage ClientMessageType.PROPERTY_SET (some stream)])

/-- EditorClient::requestProperties: the component type hash as a 4-byte
field. -/
def requestProperties (s : EditorClientImpl) (type_crc : Nat) :
    EditorClientImpl × List (List Nat) :=
  (s, [sendMessage ClientMessageType.GET_PROPERTIES (some (encodeU32 type_crc))])

/-- Modelled from the spec: DelegateList registration appends the new
listener to that event kind's order-preserving list (§4.4); here for the
entity-position kind, reached through entityPositionReceived(). -/
def subscribeEntityPosition (s : EditorClientImpl) (l : Nat) : EditorClientImpl :=
  { s with entity_position_listeners := s.entity_position_listeners ++ [l] }

/-- Modelled from the spec: listener registration for the
entity-selected kind, reached through entitySelected(). -/
def subscribeEntitySelected (s : EditorClientImpl) (l : Nat) : EditorClientImpl :=
  { s with entity_selected_listeners := s.entity_selected_listeners ++ [l] }

/-- Modelled from the spec: listener registration for the log-message
kind. -/
def subscribeLogMessage (s : EditorClientImpl) (l : Nat) : EditorClientImpl :=
  { s with message_logged_listeners := s.message_logged_listeners ++ [l] }

/-- Modelled from the spec: listener registration for the property-list
kind, reached through propertyListReceived(). -/
def subscribePropertyList (s : EditorClientImpl) (l : Nat) : EditorClientImpl :=
  { s with property_list_listeners := s.property_list_listeners ++ [l] }

/-- A concrete implementation state used to instantiate the theorems on
explicit inputs. -/
def sampleImpl : EditorClientImpl :=
  { base_path := "base", universe_path := "", entity_position_listeners := [1, 2, 3],
    entity_selected_listeners := [], message_logged_listeners := [],
    property_list_listeners := [], property_stream := [] }

/-- Four bytes of a 32-bit field assemble back to the field reduced
modulo 2^32. -/
lemma decodeU32_encodeU32 (n : Nat) : decodeU32 (encodeU32 n) = n % 4294967296 := by
  simp only [decodeU32, encodeU32]
  omega

/-- A 32-bit field always occupies exactly four bytes. -/
lemma encodeU32_length (n : Nat) : (encodeU32 n).length = 4 := rfl

/-- A signed 32-bit field always occupies exactly four bytes. -/
lemma encodeI32_length (v : Int) : (encodeI32 v).length = 4 := rfl

/-- A signed value within int32 range survives the encode/decode round
trip. -/
lemma decodeI32_encodeI32 (v : Int) (h1 : -2147483648 ≤ v) (h2 : v < 2147483648) :
    decodeI32 (encodeI32 v) = v := by
  simp only [decodeI32, encodeI32, toI32, decodeU32_encodeU32]
  split_ifs <;> omega

/-- Reading a 32-bit field placed at the front of a stream returns the
field reduced modulo 2^32 and the remaining bytes. -/
lemma readU32_encodeU32 (n : Nat) (rest : List Nat) :
    readU32 (encodeU32 n ++ rest) = some (n % 4294967296, rest) := by
  simp only [readU32, encodeU32, List.cons_append, List.nil_append,
    Option.some.injEq, Prod.mk.injEq]
  exact ⟨by omega, trivial⟩

/-- A successful 4-byte read consumed exactly four bytes. -/
lemma readU32_some_length : ∀ {bs : List Nat} {u : Nat} {r : List Nat},
    readU32 bs = some (u, r) → bs.length = r.length + 4
  | [], _, _, h => by simp [readU32] at h
  | [a], _, _, h => by simp [readU32] at h
  | [a, b], _, _, h => by simp [readU32] at h
  | [a, b, c], _, _, h => by simp [readU32] at h
  | a :: b :: c :: d :: t, u, r, h => by
    simp only [readU32, Option.some.injEq, Prod.mk.injEq] at h
    rw [← h.2]
    simp

/-- A buffer shorter than four bytes makes the 4-byte read fail. -/
lemma readU32_none_of_short {bs : List Nat} (h : bs.length < 4) : readU32 bs = none := by
  rcases bs with _ | ⟨a, _ | ⟨b, _ | ⟨c, _ | ⟨d, t⟩⟩⟩⟩ <;> simp [readU32] at h ⊢
  omega

/-- A successful signed 4-byte read consumed exactly four bytes. -/
lemma readI32_some_length {bs : List Nat} {v : Int} {r : List Nat}
    (h : readI32 bs = some (v, r)) : bs.length = r.length + 4 := by
  unfold readI32 at h
  cases hu : readU32 bs with
  | none => rw [hu] at h; exact absurd h (by simp)
  | some p =>
    rw [hu] at h
    cases p with
    | mk u rest =>
      simp at h
      exact h.2 ▸ readU32_some_length hu

/-- A buffer shorter than four bytes makes the signed 4-byte read fail. -/
lemma readI32_none_of_short {bs : List Nat} (h : bs.length < 4) : readI32 bs = none := by
  unfold readI32
  rw [readU32_none_of_short h]

/-- A successful entity-position decode consumed exactly its 16 layout
bytes. -/
lemma entityPositionRead_some_length {bs : List Nat} {ev : EntityPositionEvent}
    {r : List Nat} (h : EntityPositionEvent.read bs = some (ev, r)) :
    bs.length = r.length + 16 := by
  unfold EntityPositionEvent.read at h
  cases h1 : readI32 bs with
  | none => rw [h1] at h; simp at h
  | some p1 =>
    obtain ⟨e, r1⟩ := p1
    rw [h1] at h
    simp only [Option.bind_eq_bind, Option.some_bind] at h
    cases h2 : readU32 r1 with
    | none => rw [h2] at h; simp at h
    | some p2 =>
      obtain ⟨x, r2⟩ := p2
      rw [h2] at h
      simp only [Option.bind_eq_bind, Option.some_bind] at h
      cases h3 : readU32 r2 with
      | none => rw [h3] at h; simp at h
      | some p3 =>
        obtain ⟨y, r3⟩ := p3
        rw [h3] at h
        simp only [Option.bind_eq_bind, Option.some_bind] at h
        cases h4 : readU32 r3 with
        | none => rw [h4] at h; simp at h
        | some p4 =>
          obtain ⟨z, r4⟩ := p4
          rw [h4] at h
          simp at h
          have l1 := readI32_some_length h1
          have l2 := readU32_some_length h2
          have l3 := readU32_some_length h3
          have l4 := readU32_some_length h4
          obtain ⟨-, hr⟩ := h
          subst hr
          omega

/-- A buffer shorter than the 16 bytes of the entity-position layout
makes its decode fail. -/
lemma entityPositionRead_none_of_short {bs : List Nat} (h : bs.length < 16) :
    EntityPositionEvent.read bs = none := by
  cases hE : EntityPositionEvent.read bs with
  | none => rfl
  | some p =>
    obtain ⟨ev, r⟩ := p
    have := entityPositionRead_some_length hE
    omega

/-- A buffer shorter than the 4 bytes of the entity-selected layout
makes its decode fail. -/
lemma entitySelectedRead_none_of_short {bs : List Nat} (h : bs.length < 4) :
    EntitySelectedEvent.read bs = none := by
  unfold EntitySelectedEvent.read
  rw [readI32_none_of_short h]
  rfl

/-- A buffer shorter than the 4-byte severity field makes the log-event
decode fail. -/
lemma logEventRead_none_of_short {bs : List Nat} (h : bs.length < 4) :
    LogEvent.read bs = none := by
  unfold LogEvent.read
  rw [readI32_none_of_short h]
  rfl

/-- A buffer shorter than the 4-byte component descriptor makes the
property-list decode fail. -/
lemma propertyListRead_none_of_short {bs : List Nat} (h : bs.length < 4) :
    PropertyListEvent.read bs = none := by
  unfold PropertyListEvent.read
  rw [readU32_none_of_short h]
  rfl

/-- Dispatch assigns no field of the implementation: every branch of the
tag switch returns the incoming state. -/
lemma onMessage_fst (s : EditorClientImpl) (data : List Nat) :
    (EditorClientImpl.onMessage s data).1 = s := by
  unfold EditorClientImpl.onMessage
  repeat' split
  all_goals rfl

/-- C1: every command operation of the emitter passes exactly one framed
message to the server per call, consisting of the 4-byte command tag
followed immediately by the command payload; the five payload-free
commands send exactly the 4 tag bytes. -/
theorem C1_single_framed_message (s : EditorClientImpl) (ctype : Nat)
    (x y button dx dy flags : Int) (path other_path : String) (w : Bool)
    (time entity length : Int) (pos : Vec3) (fwd rgt spd : Nat)
    (component property : String) (value : List Nat) (type_crc : Nat) :
    (∀ t : Nat, (encodeU32 t).length = 4)
  ∧ (lookAtSelected s).2 = [encodeU32 ClientMessageType.LOOK_AT_SELECTED]
  ∧ (toggleGameMode s).2 = [encodeU32 ClientMessageType.TOGGLE_GAME_MODE]
  ∧ (addEntity s).2 = [encodeU32 ClientMessageType.ADD_ENTITY]
  ∧ (newUniverse s).2 = [encodeU32 ClientMessageType.NEW_UNIVERSE]
  ∧ (playPausePreviewAnimable s).2 = [encodeU32 ClientMessageType.PLAY_PAUSE_ANIMABLE]
  ∧ (addComponent s ctype).2 =
      [encodeU32 ClientMessageType.ADD_COMPONENT ++ encodeU32 ctype]
  ∧ (mouseDown s x y button).2 =
      [encodeU32 ClientMessageType.POINTER_DOWN ++
        (encodeI32 x ++ encodeI32 y ++ encodeI32 button)]
  ∧ (mouseUp s x y button).2 =
      [encodeU32 ClientMessageType.POINTER_UP ++
        (encodeI32 x ++ encodeI32 y ++ encodeI32 button)]
  ∧ (mouseMove s x y dx dy flags).2 =
      [encodeU32 ClientMessageType.POINTER_MOVE ++
        (encodeI32 x ++ encodeI32 y ++ encodeI32 dx ++ encodeI32 dy ++ encodeI32 flags)]
  ∧ (loadUniverse s path).2 =
      [encodeU32 ClientMessageType.LOAD ++ (strBytes path ++ [0])]
  ∧ (saveUniverse s other_path).2 =
      [encodeU32 ClientMessageType.SAVE ++ (strBytes other_path ++ [0])]
  ∧ (setWireframe s w).2 =
      [encodeU32 ClientMessageType.SET_WIREFRAME ++ encodeI32 (if w then 1 else 0)]
  ∧ (setAnimableTime s time).2 =
      [encodeU32 ClientMessageType.SET_ANIMABLE_TIME ++ encodeI32 time]
  ∧ (setEntityPosition s entity pos).2 =
      [encodeU32 ClientMessageType.SET_POSITION ++ (encodeI32 entity ++ pos.bytes)]
  ∧ (navigate s fwd rgt spd).2 =
      [encodeU32 ClientMessageType.MOVE_CAMERA ++
        (encodeU32 fwd ++ encodeU32 rgt ++ encodeU32 spd)]
  ∧ (setComponentProperty s component property value length).2 =
      [encodeU32 ClientMessageType.PROPERTY_SET ++
        buildPropertyPayload s.property_stream component property value length]
  ∧ (requestProperties s type_crc).2 =
      [encodeU32 ClientMessageType.GET_PROPERTIES ++ encodeU32 type_crc] :=
  ⟨fun _ => rfl, rfl, rfl, rfl, rfl, rfl, rfl, rfl, rfl, rfl, rfl, rfl, rfl, rfl,
   rfl, rfl, rfl, rfl⟩

/-- C2: setComponentProperty emits, in order and with no padding, the
4-byte CRC-32 hash of the component name, the 4-byte CRC-32 hash of the
property name, the 4-byte length, then exactly the value bytes. -/
theorem C2_setComponentProperty_payload (s : EditorClientImpl)
    (component property : String) (value : List Nat) (length : Int)
    (hlen : length = (value.length : Int)) :
    (setComponentProperty s component property value length).2 =
      [encodeU32 ClientMessageType.PROPERTY_SET ++
        (encodeU32 (crc32 component) ++ encodeU32 (crc32 property) ++
          encodeI32 length ++ value)]
  ∧ (encodeU32 (crc32 component)).length = 4
  ∧ (encodeU32 (crc32 property)).length = 4
  ∧ (encodeI32 length).length = 4 := by
  subst hlen
  refine ⟨?_, rfl, rfl, rfl⟩
  simp [setComponentProperty, buildPropertyPayload, writePropertyFields,
    Blob.write, Blob.clearBuffer, sendMessage, List.append_assoc,
    Int.toNat_natCast, List.take_length]

/-- C2 witness: the setComponentProperty scenario of the spec at the
concrete inputs Transform, Scale, bytes 3F 80 00 00, length 4. -/
theorem C2_setComponentProperty_payload_witness :
    (setComponentProperty sampleImpl "Transform" "Scale" [63, 128, 0, 0] 4).2 =
      [encodeU32 ClientMessageType.PROPERTY_SET ++
        (encodeU32 (crc32 "Transform") ++ encodeU32 (crc32 "Scale") ++
          encodeI32 4 ++ [63, 128, 0, 0])]
  ∧ (encodeU32 (crc32 "Transform")).length = 4
  ∧ (encodeU32 (crc32 "Scale")).length = 4
  ∧ (encodeI32 4).length = 4 :=
  C2_setComponentProperty_payload sampleImpl "Transform" "Scale" [63, 128, 0, 0] 4
    (by decide)

/-- C4: loadUniverse and saveUniverse cache their path argument
unconditionally (sends are fire-and-forget and report no outcome),
newUniverse resets the cache to the empty string, and getUniversePath
reads the cache; in particular the foo.unv scenario of the spec. -/
theorem C4_universe_path_cache (s : EditorClientImpl) (p : String) :
    getUniversePath (loadUniverse s p).1 = p
  ∧ getUniversePath (saveUniverse s p).1 = p
  ∧ getUniversePath (newUniverse s).1 = ""
  ∧ getUniversePath (loadUniverse s "foo.unv").1 = "foo.unv"
  ∧ getUniversePath (newUniverse (loadUniverse s "foo.unv").1).1 = "" :=
  ⟨rfl, rfl, rfl, rfl, rfl⟩

/-- C8: clearing the reused write buffer and then writing the property
command yields the same bytes as writing it into a fresh empty buffer,
so two setComponentProperty calls with identical arguments pass
byte-for-byte identical messages to the transport from any two states,
whatever commands were emitted in between. -/
theorem C8_clear_equals_fresh (buf : List Nat) (s1 s2 : EditorClientImpl)
    (component property : String) (value : List Nat) (length : Int) :
    writePropertyFields (Blob.clearBuffer buf) component property value length =
      writePropertyFields [] component property value length
  ∧ buildPropertyPayload buf component property value length =
      buildPropertyPayload [] component property value length
  ∧ (setComponentProperty s1 component property value length).2 =
      (setComponentProperty s2 component property value length).2 :=
  ⟨rfl, rfl, rfl⟩

/-- C3: an inbound message whose leading 4-byte tag is none of the four
recognized event tags is dispatched as a silent no-op: no listener is
invoked and no error is raised. -/
theorem C3_unknown_tag_silent_noop (s : EditorClientImpl) (data : List Nat)
    (tag : Int) (rest : List Nat)
    (hread : readI32 data = some (tag, rest))
    (h1 : tag ≠ ServerMessageType.ENTITY_POSITION)
    (h2 : tag ≠ ServerMessageType.ENTITY_SELECTED)
    (h3 : tag ≠ ServerMessageType.PROPERTY_LIST)
    (h4 : tag ≠ ServerMessageType.LOG_MESSAGE) :
    EditorClientImpl.onMessage s data = (s, some []) := by
  simp [EditorClientImpl.onMessage, hread, h1, h2, h3, h4]

/-- C3 witness: a message carrying the unknown tag 999 is dispatched
with zero invocations and no error. -/
theorem C3_unknown_tag_silent_noop_witness :
    EditorClientImpl.onMessage sampleImpl [231, 3, 0, 0] = (sampleImpl, some []) :=
  C3_unknown_tag_silent_noop sampleImpl [231, 3, 0, 0] 999 []
    (by decide) (by decide) (by decide) (by decide) (by decide)

/-- C5: setEntityPosition emits a 16-byte payload whose first 4 bytes
are the entity id and whose next 12 bytes are the three position
components in order, and those fields decode back to the inputs. -/
theorem C5_setEntityPosition_payload (s : EditorClientImpl) (entity : Int) (pos : Vec3)
    (hlo : -2147483648 ≤ entity) (hhi : entity < 2147483648)
    (hx : pos.x < 4294967296) (hy : pos.y < 4294967296) (hz : pos.z < 4294967296) :
    (setEntityPosition s entity pos).2 =
      [encodeU32 ClientMessageType.SET_POSITION ++ (encodeI32 entity ++ pos.bytes)]
  ∧ (encodeI32 entity ++ pos.bytes).length = 16
  ∧ (encodeI32 entity ++ pos.bytes).take 4 = encodeI32 entity
  ∧ (encodeI32 entity ++ pos.bytes).drop 4 = pos.bytes
  ∧ decodeI32 ((encodeI32 entity ++ pos.bytes).take 4) = entity
  ∧ decodeU32 (pos.bytes.take 4) = pos.x
  ∧ decodeU32 ((pos.bytes.drop 4).take 4) = pos.y
  ∧ decodeU32 (pos.bytes.drop 8) = pos.z := by
  refine ⟨rfl, rfl, rfl, rfl, ?_, ?_, ?_, ?_⟩
  · show decodeI32 (encodeI32 entity) = entity
    exact decodeI32_encodeI32 entity hlo hhi
  · show decodeU32 (encodeU32 pos.x) = pos.x
    rw [decodeU32_encodeU32]
    exact Nat.mod_eq_of_lt hx
  · show decodeU32 (encodeU32 pos.y) = pos.y
    rw [decodeU32_encodeU32]
    exact Nat.mod_eq_of_lt hy
  · show decodeU32 (encodeU32 pos.z) = pos.z
    rw [decodeU32_encodeU32]
    exact Nat.mod_eq_of_lt hz

/-- C5 witness: the spec scenario at entity 7 and the float patterns of
1.0, 2.0, 3.0 (3F800000, 40000000, 40400000). -/
theorem C5_setEntityPosition_payload_witness :
    (setEntityPosition sampleImpl 7 ⟨1065353216, 1073741824, 1077936128⟩).2 =
      [encodeU32 ClientMessageType.SET_POSITION ++
        (encodeI32 7 ++ Vec3.bytes ⟨1065353216, 1073741824, 1077936128⟩)]
  ∧ (encodeI32 7 ++ Vec3.bytes ⟨1065353216, 1073741824, 1077936128⟩).length = 16
  ∧ (encodeI32 7 ++ Vec3.bytes ⟨1065353216, 1073741824, 1077936128⟩).take 4 = encodeI32 7
  ∧ (encodeI32 7 ++ Vec3.bytes ⟨1065353216, 1073741824, 1077936128⟩).drop 4 =
      Vec3.bytes ⟨1065353216, 1073741824, 1077936128⟩
  ∧ decodeI32 ((encodeI32 7 ++ Vec3.bytes ⟨1065353216, 1073741824, 1077936128⟩).take 4) = 7
  ∧ decodeU32 ((Vec3.bytes ⟨1065353216, 1073741824, 1077936128⟩).take 4) = 1065353216
  ∧ decodeU32 (((Vec3.bytes ⟨1065353216, 1073741824, 1077936128⟩).drop 4).take 4) = 1073741824
  ∧ decodeU32 ((Vec3.bytes ⟨1065353216, 1073741824, 1077936128⟩).drop 8) = 1077936128 :=
  C5_setEntityPosition_payload sampleImpl 7 ⟨1065353216, 1073741824, 1077936128⟩
    (by decide) (by decide) (by decide) (by decide) (by decide)

/-- C6: an inbound buffer shorter than its tagged layout requires, even
one shorter than the 4-byte tag itself, makes dispatch fail as a
decoding error with no listener invoked: the entity-position layout
needs 16 payload bytes, the entity-selected layout 4, and the log and
property-list events fail whenever their own decode reports too few
bytes. -/
theorem C6_short_buffer_fails (s : EditorClientImpl) (data : List Nat) :
    (data.length < 4 → EditorClientImpl.onMessage s data = (s, none))
  ∧ (∀ rest, readI32 data = some (ServerMessageType.ENTITY_POSITION, rest) →
      rest.length < 16 → EditorClientImpl.onMessage s data = (s, none))
  ∧ (∀ rest, readI32 data = some (ServerMessageType.ENTITY_SELECTED, rest) →
      rest.length < 4 → EditorClientImpl.onMessage s data = (s, none))
  ∧ (∀ rest, readI32 data = some (ServerMessageType.LOG_MESSAGE, rest) →
      LogEvent.read rest = none → EditorClientImpl.onMessage s data = (s, none))
  ∧ (∀ rest, readI32 data = some (ServerMessageType.PROPERTY_LIST, rest) →
      PropertyListEvent.read rest = none → EditorClientImpl.onMessage s data = (s, none)) := by
  refine ⟨?_, ?_, ?_, ?_, ?_⟩
  · intro h
    simp [EditorClientImpl.onMessage, readI32_none_of_short h]
  · intro rest hread hlen
    simp [EditorClientImpl.onMessage, hread,
      entityPositionRead_none_of_short hlen]
  · intro rest hread hlen
    simp [EditorClientImpl.onMessage, hread, ServerMessageType.ENTITY_POSITION,
      ServerMessageType.ENTITY_SELECTED, entitySelectedRead_none_of_short hlen]
  · intro rest hread hfail
    simp [EditorClientImpl.onMessage, hread, ServerMessageType.ENTITY_POSITION,
      ServerMessageType.ENTITY_SELECTED, ServerMessageType.PROPERTY_LIST,
      ServerMessageType.LOG_MESSAGE, hfail]
  · intro rest hread hfail
    simp [EditorClientImpl.onMessage, hread, ServerMessageType.ENTITY_POSITION,
      ServerMessageType.ENTITY_SELECTED, ServerMessageType.PROPERTY_LIST, hfail]

/-- C6 witness: a 3-byte buffer and a truncated entity-position message
of 8 payload bytes each fail as decoding errors with no invocation. -/
theorem C6_short_buffer_fails_witness :
    EditorClientImpl.onMessage sampleImpl [7, 0, 0] = (sampleImpl, none)
  ∧ EditorClientImpl.onMessage sampleImpl [1, 0, 0, 0, 5, 0, 0, 0, 7, 0, 0, 0] =
      (sampleImpl, none) :=
  ⟨(C6_short_buffer_fails sampleImpl [7, 0, 0]).1 (by decide),
   (C6_short_buffer_fails sampleImpl [1, 0, 0, 0, 5, 0, 0, 0, 7, 0, 0, 0]).2.1
     [5, 0, 0, 0, 7, 0, 0, 0] (by decide) (by decide)⟩

/-- C7: listeners registered for an event kind are appended in
registration order, and dispatching one recognized event invokes every
listener of that kind exactly once, in that order, each invocation
carrying the same decoded event; for listeners L1, L2, L3 the trace is
exactly L1 then L2 then L3. -/
theorem C7_listener_order (s : EditorClientImpl) (data : List Nat) :
    (∀ (s0 : EditorClientImpl) (L1 L2 L3 : Nat), s0.entity_position_listeners = [] →
      (subscribeEntityPosition (subscribeEntityPosition (subscribeEntityPosition s0 L1) L2)
          L3).entity_position_listeners = [L1, L2, L3])
  ∧ (∀ rest msg tail, readI32 data = some (ServerMessageType.ENTITY_POSITION, rest) →
      EntityPositionEvent.read rest = some (msg, tail) →
      (EditorClientImpl.onMessage s data).2 =
        some (s.entity_position_listeners.map (fun l => Invoked.entityPosition l msg)))
  ∧ (∀ rest msg tail, readI32 data = some (ServerMessageType.ENTITY_SELECTED, rest) →
      EntitySelectedEvent.read rest = some (msg, tail) →
      (EditorClientImpl.onMessage s data).2 =
        some (s.entity_selected_listeners.map (fun l => Invoked.entitySelected l msg)))
  ∧ (∀ rest msg tail, readI32 data = some (ServerMessageType.PROPERTY_LIST, rest) →
      PropertyListEvent.read rest = some (msg, tail) →
      (EditorClientImpl.onMessage s data).2 =
        some (s.property_list_listeners.map (fun l => Invoked.propertyList l msg)))
  ∧ (∀ rest msg tail, readI32 data = some (ServerMessageType.LOG_MESSAGE, rest) →
      LogEvent.read rest = some (msg, tail) →
      (EditorClientImpl.onMessage s data).2 =
        some (s.message_logged_listeners.map (fun l => Invoked.logMessage l msg)))
  ∧ (∀ (L1 L2 L3 : Nat) rest msg tail, s.entity_position_listeners = [L1, L2, L3] →
      readI32 data = some (ServerMessageType.ENTITY_POSITION, rest) →
      EntityPositionEvent.read rest = some (msg, tail) →
      (EditorClientImpl.onMessage s data).2 =
        some [Invoked.entityPosition L1 msg, Invoked.entityPosition L2 msg,
              Invoked.entityPosition L3 msg]) := by
  refine ⟨?_, ?_, ?_, ?_, ?_, ?_⟩
  · intro s0 L1 L2 L3 h
    simp [subscribeEntityPosition, h]
  · intro rest msg tail hread hE
    simp [EditorClientImpl.onMessage, hread, hE]
  · intro rest msg tail hread hE
    simp [EditorClientImpl.onMessage, hread, hE, ServerMessageType.ENTITY_POSITION,
      ServerMessageType.ENTITY_SELECTED]
  · intro rest msg tail hread hE
    simp [EditorClientImpl.onMessage, hread, hE, ServerMessageType.ENTITY_POSITION,
      ServerMessageType.ENTITY_SELECTED, ServerMessageType.PROPERTY_LIST]
  · intro rest msg tail hread hE
    simp [EditorClientImpl.onMessage, hread, hE, ServerMessageType.ENTITY_POSITION,
      ServerMessageType.ENTITY_SELECTED, ServerMessageType.PROPERTY_LIST,
      ServerMessageType.LOG_MESSAGE]
  · intro L1 L2 L3 rest msg tail hlist hread hE
    simp [EditorClientImpl.onMessage, hread, hE, hlist]

/-- C7 witness: three subscriptions on an empty registry appear in
order, and a concrete entity-position message reaches listeners 1, 2, 3
in that order with the same decoded event. -/
theorem C7_listener_order_witness :
    (subscribeEntityPosition (subscribeEntityPosition (subscribeEntityPosition
        { sampleImpl with entity_position_listeners := [] } 1) 2)
        3).entity_position_listeners = [1, 2, 3]
  ∧ (EditorClientImpl.onMessage sampleImpl
      [1, 0, 0, 0, 5, 0, 0, 0, 7, 0, 0, 0, 8, 0, 0, 0, 9, 0, 0, 0]).2 =
      some [Invoked.entityPosition 1 ⟨5, ⟨7, 8, 9⟩⟩,
            Invoked.entityPosition 2 ⟨5, ⟨7, 8, 9⟩⟩,
            Invoked.entityPosition 3 ⟨5, ⟨7, 8, 9⟩⟩] := by
  have h := C7_listener_order sampleImpl
    [1, 0, 0, 0, 5, 0, 0, 0, 7, 0, 0, 0, 8, 0, 0, 0, 9, 0, 0, 0]
  refine ⟨h.1 { sampleImpl with entity_position_listeners := [] } 1 2 3 rfl, ?_⟩
  exact h.2.2.2.2.2 1 2 3 [5, 0, 0, 0, 7, 0, 0, 0, 8, 0, 0, 0, 9, 0, 0, 0]
    ⟨5, ⟨7, 8, 9⟩⟩ [] rfl (by decide) (by decide)

/-- C9: dispatch is atomic with respect to registry state: whatever the
inbound bytes, onMessage leaves every subscription list, the cached
universe path, and the base path unchanged, at the implementation and at
the public client. -/
theorem C9_dispatch_preserves_state (s : EditorClientImpl) (data : List Nat)
    (c : EditorClient) :
    (EditorClientImpl.onMessage s data).1 = s
  ∧ (EditorClientImpl.onMessage s data).1.entity_position_listeners =
      s.entity_position_listeners
  ∧ (EditorClientImpl.onMessage s data).1.entity_selected_listeners =
      s.entity_selected_listeners
  ∧ (EditorClientImpl.onMessage s data).1.message_logged_listeners =
      s.message_logged_listeners
  ∧ (EditorClientImpl.onMessage s data).1.property_list_listeners =
      s.property_list_listeners
  ∧ (EditorClientImpl.onMessage s data).1.universe_path = s.universe_path
  ∧ (EditorClientImpl.onMessage s data).1.base_path = s.base_path
  ∧ (EditorClient.onMessage c data).1 = c := by
  have h := onMessage_fst s data
  refine ⟨h, by rw [h], by rw [h], by rw [h], by rw [h], by rw [h], by rw [h], ?_⟩
  rcases c with ⟨_ | si⟩
  · rfl
  · simp [EditorClient.onMessage, onMessage_fst]

/-- C10: destroying the client nulls the implementation pointer, a
second destroy does nothing, and with a null pointer onMessage is a safe
no-op that invokes no listener and changes no state. -/
theorem C10_destroy_idempotent_null_guard (c : EditorClient) (data : List Nat) :
    (EditorClient.destroy c).impl = none
  ∧ EditorClient.destroy (EditorClient.destroy c) = EditorClient.destroy c
  ∧ (c.impl = none →
      EditorClient.onMessage c data = (c, some []) ∧ EditorClient.destroy c = c) := by
  rcases c with ⟨_ | si⟩
  · exact ⟨rfl, rfl, fun _ => ⟨rfl, rfl⟩⟩
  · exact ⟨rfl, rfl, fun h => absurd h (by simp)⟩

/-- C10 witness: the destroyed client at concrete inputs: its pointer is
null, a second destroy is identity, and onMessage is a safe no-op. -/
theorem C10_destroy_idempotent_null_guard_witness :
    (EditorClient.destroy { impl := none }).impl = none
  ∧ EditorClient.destroy (EditorClient.destroy { impl := none }) =
      EditorClient.destroy { impl := none }
  ∧ (EditorClient.onMessage { impl := none } [1, 0, 0, 0] =
      ({ impl := none }, some [])
    ∧ EditorClient.destroy { impl := none } = { impl := none }) := by
  have h := C10_destroy_idempotent_null_guard { impl := none } [1, 0, 0, 0]
  exact ⟨h.1, h.2.1, h.2.2 rfl⟩

end Lumix
